import Mathlib

/-!
# Opshub ticket backend — verification of the ticket lifecycle and authorization rules

Shallow embedding of the Opshub API's core decision logic:
* `validateStatusTransition` and the transition table from
  `apps/api/src/routes/tickets.js`;
* the ticket CRUD handlers (create / list / get / patch / delete) from the
  same file, with the external relational store modelled as explicit lists;
* the member-removal handler from the orgs router;
* `createAuditLog` from `lib/audit.js`, whose store failure is swallowed.

JavaScript status and role values are strings in the source; statuses are
kept as `String` here (the transition table mentions the string `"REJECTED"`
which is outside the declared status enum), roles as a closed inductive.
Thrown `AppError` subclasses are modelled with `Except ApiError`.
-/

/-- The six declared ticket statuses (`TicketStatus` enum of the schema, and
the `z.enum` lists in the route schemas). -/
def ticketStatusEnum : List String :=
  ["OPEN", "PENDING_APPROVAL", "APPROVED", "IN_PROGRESS", "RESOLVED", "CLOSED"]

/-- OrgMembership roles (`Role` enum of the schema). -/
inductive Role where
  | OWNER
  | ADMIN
  | AGENT
  | VIEWER
deriving DecidableEq, Repr

/-- Structured detail attached to a transition `ValidationError`:
`{ currentStatus, newStatus, validTransitions }`. -/
structure TransitionDetails where
  currentStatus : String
  newStatus : String
  validTransitions : List String
deriving DecidableEq, Repr

/-- The `AppError` subclasses of `middleware/errorHandler.js`. A transition
`ValidationError` carries `TransitionDetails`; other validation errors carry
`none`. -/
inductive ApiError where
  | validationError (message : String) (details : Option TransitionDetails)
  | unauthorizedError (message : String)
  | forbiddenError (message : String)
  | notFoundError (message : String)
  | internalError (message : String)
deriving DecidableEq, Repr

/-- The `transitionRules` table of `validateStatusTransition`
(`tickets.js` lines 18–25); `transitionRules[currentStatus] || []` yields `[]`
for a key outside the table. -/
def transitionRules (currentStatus : String) : List String :=
  if currentStatus = "OPEN" then ["PENDING_APPROVAL", "IN_PROGRESS", "CLOSED"]
  else if currentStatus = "PENDING_APPROVAL" then ["APPROVED", "REJECTED", "OPEN"]
  else if currentStatus = "APPROVED" then ["IN_PROGRESS", "CLOSED"]
  else if currentStatus = "IN_PROGRESS" then ["RESOLVED", "CLOSED"]
  else if currentStatus = "RESOLVED" then ["CLOSED"]
  else if currentStatus = "CLOSED" then []
  else []

/-- `validateStatusTransition(currentStatus, newStatus, userRole)`
(`tickets.js` lines 16–43): the VIEWER gate precedes the table lookup; an
illegal pair raises a `ValidationError` carrying the current status, the
requested status and the legal target set. -/
def validateStatusTransition (currentStatus newStatus : String) (userRole : Role) :
    Except ApiError Bool :=
  let validTransitions := transitionRules currentStatus
  if userRole = Role.VIEWER then
    .error (ApiError.forbiddenError "Viewers cannot change ticket status")
  else if !(validTransitions.contains newStatus) then
    .error (ApiError.validationError
      ("Cannot transition from " ++ currentStatus ++ " to " ++ newStatus)
      (some { currentStatus := currentStatus, newStatus := newStatus,
              validTransitions := validTransitions }))
  else
    .ok true

/-- An `OrgMembership` row: at most one per (userId, organizationId) pair. -/
structure OrgMembership where
  userId : String
  organizationId : String
  role : Role
deriving DecidableEq, Repr

/-- A `Ticket` row; nullable timestamp columns are `Option Nat`
(times as abstract ticks), `assigneeId` is nullable. -/
structure Ticket where
  id : String
  title : String
  description : String
  organizationId : String
  status : String
  requiresApproval : Bool
  creatorId : String
  assigneeId : Option String
  createdAt : Nat
  updatedAt : Nat
  resolvedAt : Option Nat
  closedAt : Option Nat
deriving DecidableEq, Repr

/-- Old/new pairs collected into the `metadata` object of the PATCH handler;
a `none` field was not recorded. -/
structure ChangeMetadata where
  oldTitle : Option String := none
  newTitle : Option String := none
  oldDescription : Option String := none
  newDescription : Option String := none
  oldStatus : Option String := none
  newStatus : Option String := none
  oldAssigneeId : Option (Option String) := none
  newAssigneeId : Option (Option String) := none
  oldRequiresApproval : Option Bool := none
  newRequiresApproval : Option Bool := none
deriving DecidableEq, Repr

/-- The `metadata` JSON each audit call site passes (one fixed shape per
call site in the source). -/
inductive AuditMetadata where
  | ticketCreated (title : String) (requiresApproval : Bool) (assigneeId : Option String)
  | ticketChanges (changes : ChangeMetadata)
  | ticketDeleted (title : String)
  | memberRemoved (removedUserId : String)
deriving DecidableEq, Repr

/-- An `AuditLog` row. -/
structure AuditEntry where
  organizationId : String
  userId : String
  ticketId : Option String
  action : String
  metadata : AuditMetadata
deriving DecidableEq, Repr

/-- The external relational store visible to the handlers. -/
structure Db where
  tickets : List Ticket
  memberships : List OrgMembership
  auditLogs : List AuditEntry
deriving DecidableEq, Repr

/-- The store-level `auditLog.create` call: the external write may fail
(`writeOk = false` models a store failure at this call). -/
def auditStoreCreate (db : Db) (entry : AuditEntry) (writeOk : Bool) :
    Except String Db :=
  if writeOk then .ok { db with auditLogs := db.auditLogs ++ [entry] }
  else .error "store failure"

/-- `createAuditLog` (`lib/audit.js` lines 7–22): the try/catch swallows a
store failure — it is logged only, never rethrown, so the function is total
and returns the store unchanged on failure. -/
def createAuditLog (db : Db) (entry : AuditEntry) (writeOk : Bool) : Db :=
  match auditStoreCreate db entry writeOk with
  | .ok db' => db'
  | .error _ => db

/-- `hasRole(membership, allowedRoles)` (`middleware/auth.js`). -/
def hasRole (membership : OrgMembership) (allowedRoles : List Role) : Bool :=
  allowedRoles.contains membership.role

/-- `prisma.orgMembership.findUnique` on the (userId, organizationId) key. -/
def findMembership (memberships : List OrgMembership) (userId orgId : String) :
    Option OrgMembership :=
  memberships.find? (fun m => m.userId == userId && m.organizationId == orgId)

/-- Whether a user resolves to a membership of the organization. -/
def isMember (memberships : List OrgMembership) (userId orgId : String) : Bool :=
  (findMembership memberships userId orgId).isSome

/-- `prisma.ticket.findUnique({ where: { id } })`. -/
def findTicket (db : Db) (ticketId : String) : Option Ticket :=
  db.tickets.find? (fun t => t.id == ticketId)

/-- JavaScript truthiness of an optional/nullable string field
(`undefined`, `null` and `""` are falsy). -/
def optTruthy (s : Option String) : Bool :=
  match s with
  | some v => v ≠ ""
  | none => false

/-- The body accepted by `PATCH /:orgId/tickets/:ticketId`; for `assigneeId`
(`optional().nullable()`) the outer `Option` is field presence, the inner one
the null value. -/
structure PatchBody where
  title : Option String := none
  description : Option String := none
  status : Option String := none
  assigneeId : Option (Option String) := none
  requiresApproval : Option Bool := none
deriving DecidableEq, Repr

/-- The zod schema of the PATCH route (`tickets.js` lines 244–250): title
1–255 chars, description nonempty, status within the six-member enum. -/
def patchSchemaValid (body : PatchBody) : Bool :=
  (match body.title with
   | some t => 1 ≤ t.length && t.length ≤ 255
   | none => true) &&
  (match body.description with
   | some d => 1 ≤ d.length
   | none => true) &&
  (match body.status with
   | some s => ticketStatusEnum.contains s
   | none => true)

/-- The `updateData` object of the PATCH handler: a field is `some` exactly
when the handler assigned it. -/
structure UpdateData where
  title : Option String := none
  description : Option String := none
  status : Option String := none
  resolvedAt : Option Nat := none
  closedAt : Option Nat := none
  assigneeId : Option (Option String) := none
  requiresApproval : Option Bool := none
deriving DecidableEq, Repr

/-- The pair (`updateData`, `metadata`) threaded through the PATCH handler. -/
structure UpdAcc where
  upd : UpdateData
  meta : ChangeMetadata
deriving DecidableEq, Repr

/-- PATCH handler, title/description section (`tickets.js` lines 274–289):
requires OWNER/ADMIN when either field is present, then records both. -/
def stepTitleDescr (membership : OrgMembership) (ticket : Ticket) (body : PatchBody)
    (acc : UpdAcc) : Except ApiError UpdAcc :=
  if body.title.isSome || body.description.isSome then
    if !(hasRole membership [Role.OWNER, Role.ADMIN]) then
      .error (ApiError.forbiddenError "Only admins can update ticket title/description")
    else
      let acc1 :=
        match body.title with
        | some t =>
            { acc with
              upd := { acc.upd with title := some t },
              meta := { acc.meta with oldTitle := some ticket.title, newTitle := some t } }
        | none => acc
      let acc2 :=
        match body.description with
        | some d =>
            { acc1 with
              upd := { acc1.upd with description := some d },
              meta := { acc1.meta with
                        oldDescription := some ticket.description
                        newDescription := some d } }
        | none => acc1
      .ok acc2
  else
    .ok acc

/-- PATCH handler, status section (`tickets.js` lines 291–305): only a
requested status distinct from the current one reaches the transition check;
`resolvedAt`/`closedAt` are stamped only when not already set. -/
def stepStatus (role : Role) (ticket : Ticket) (body : PatchBody) (now : Nat)
    (acc : UpdAcc) : Except ApiError UpdAcc :=
  match body.status with
  | some s =>
    if s ≠ ticket.status then
      match validateStatusTransition ticket.status s role with
      | .error e => .error e
      | .ok _ =>
        let upd1 := { acc.upd with status := some s }
        let upd2 :=
          if s == "RESOLVED" && ticket.resolvedAt.isNone then
            { upd1 with resolvedAt := some now }
          else upd1
        let upd3 :=
          if s == "CLOSED" && ticket.closedAt.isNone then
            { upd2 with closedAt := some now }
          else upd2
        .ok { upd := upd3,
              meta := { acc.meta with oldStatus := some ticket.status, newStatus := some s } }
    else .ok acc
  | none => .ok acc

/-- PATCH handler, assignee section (`tickets.js` lines 307–332): a present
truthy assignee must resolve to a membership of the organization; only a value
different from the current one is recorded. -/
def stepAssignee (memberships : List OrgMembership) (orgId : String) (ticket : Ticket)
    (body : PatchBody) (acc : UpdAcc) : Except ApiError UpdAcc :=
  match body.assigneeId with
  | none => .ok acc
  | some newAssigneeId =>
    let memberCheck : Except ApiError Unit :=
      if optTruthy newAssigneeId then
        if isMember memberships (newAssigneeId.getD "") orgId then .ok ()
        else .error (ApiError.validationError
          "Assignee is not a member of this organization" none)
      else .ok ()
    match memberCheck with
    | .error e => .error e
    | .ok _ =>
      if newAssigneeId ≠ ticket.assigneeId then
        .ok { acc with
              upd := { acc.upd with assigneeId := some newAssigneeId },
              meta := { acc.meta with
                        oldAssigneeId := some ticket.assigneeId
                        newAssigneeId := some newAssigneeId } }
      else .ok acc

/-- PATCH handler, `requiresApproval` section (`tickets.js` lines 334–341). -/
def stepApproval (ticket : Ticket) (body : PatchBody) (acc : UpdAcc) : UpdAcc :=
  match body.requiresApproval with
  | some b =>
    if b ≠ ticket.requiresApproval then
      { acc with
        upd := { acc.upd with requiresApproval := some b },
        meta := { acc.meta with
                  oldRequiresApproval := some ticket.requiresApproval
                  newRequiresApproval := some b } }
    else acc
  | none => acc

/-- `Object.keys(updateData).length === 0`. -/
def updIsEmpty (u : UpdateData) : Bool :=
  u.title.isNone && u.description.isNone && u.status.isNone &&
  u.resolvedAt.isNone && u.closedAt.isNone && u.assigneeId.isNone &&
  u.requiresApproval.isNone

/-- `prisma.ticket.update({ data: updateData })`: fields present in
`updateData` are written, the store maintains `updatedAt` (`@updatedAt`). -/
def applyUpdate (t : Ticket) (u : UpdateData) (now : Nat) : Ticket :=
  { t with
    title := u.title.getD t.title,
    description := u.description.getD t.description,
    status := u.status.getD t.status,
    resolvedAt := match u.resolvedAt with | some v => some v | none => t.resolvedAt,
    closedAt := match u.closedAt with | some v => some v | none => t.closedAt,
    assigneeId := match u.assigneeId with | some v => v | none => t.assigneeId,
    requiresApproval := u.requiresApproval.getD t.requiresApproval,
    updatedAt := now }

/-- `PATCH /:orgId/tickets/:ticketId` (`tickets.js` lines 242–387).
`membership` is the requester's resolved `req.orgMembership`; `now` the clock
at the update; `auditOk` the audit store write's outcome. Returns the ticket
sent in the response together with the resulting store. -/
def patchTicketHandler (db : Db) (userId : String) (membership : OrgMembership)
    (orgId ticketId : String) (body : PatchBody) (now : Nat) (auditOk : Bool) :
    Except ApiError (Ticket × Db) :=
  if !(patchSchemaValid body) then
    .error (ApiError.validationError "Validation failed" none)
  else
    match findTicket db ticketId with
    | none => .error (ApiError.notFoundError "Ticket not found")
    | some ticket =>
      if ticket.organizationId ≠ orgId then
        .error (ApiError.forbiddenError "Access denied to this ticket")
      else
        match stepTitleDescr membership ticket body { upd := {}, meta := {} } with
        | .error e => .error e
        | .ok acc1 =>
          match stepStatus membership.role ticket body now acc1 with
          | .error e => .error e
          | .ok acc2 =>
            match stepAssignee db.memberships orgId ticket body acc2 with
            | .error e => .error e
            | .ok acc3 =>
              let acc4 := stepApproval ticket body acc3
              if updIsEmpty acc4.upd then
                .ok (ticket, db)
              else
                let updated := applyUpdate ticket acc4.upd now
                let action :=
                  if acc4.meta.oldStatus.isSome then "STATUS_CHANGED"
                  else "TICKET_UPDATED"
                let db1 : Db :=
                  { db with tickets :=
                      db.tickets.map (fun t => if t.id == ticketId then updated else t) }
                let db2 := createAuditLog db1
                  { organizationId := orgId, userId := userId,
                    ticketId := some ticketId, action := action,
                    metadata := AuditMetadata.ticketChanges acc4.meta } auditOk
                .ok (updated, db2)

/-- The body accepted by `POST /:orgId/tickets`; `requiresApproval` has a
zod default of `false` when the field is absent. -/
structure CreateBody where
  title : String
  description : String
  assigneeId : Option String := none
  requiresApproval : Option Bool := none
deriving DecidableEq, Repr

/-- The zod schema of the POST route (`tickets.js` lines 118–123). -/
def createSchemaValid (body : CreateBody) : Bool :=
  1 ≤ body.title.length && body.title.length ≤ 255 && 1 ≤ body.description.length

/-- `POST /:orgId/tickets` (`tickets.js` lines 116–188): a truthy assignee
must be a member; the ticket is created with `status: 'OPEN'`
unconditionally. -/
def createTicketHandler (db : Db) (userId orgId : String) (body : CreateBody)
    (newId : String) (now : Nat) (auditOk : Bool) : Except ApiError (Ticket × Db) :=
  if !(createSchemaValid body) then
    .error (ApiError.validationError "Validation failed" none)
  else
    let requiresApproval := body.requiresApproval.getD false
    let assigneeCheck : Except ApiError Unit :=
      if optTruthy body.assigneeId then
        if isMember db.memberships (body.assigneeId.getD "") orgId then .ok ()
        else .error (ApiError.validationError
          "Assignee is not a member of this organization" none)
      else .ok ()
    match assigneeCheck with
    | .error e => .error e
    | .ok _ =>
      let ticket : Ticket :=
        { id := newId, title := body.title, description := body.description,
          organizationId := orgId, status := "OPEN",
          requiresApproval := requiresApproval, creatorId := userId,
          assigneeId := body.assigneeId, createdAt := now, updatedAt := now,
          resolvedAt := none, closedAt := none }
      let db1 : Db := { db with tickets := db.tickets ++ [ticket] }
      let db2 := createAuditLog db1
        { organizationId := orgId, userId := userId, ticketId := some newId,
          action := "TICKET_CREATED",
          metadata := AuditMetadata.ticketCreated body.title requiresApproval
            body.assigneeId } auditOk
      .ok (ticket, db2)

/-- `GET /:orgId/tickets/:ticketId` (`tickets.js` lines 194–236): absent id
gives `NotFound`, a ticket of another organization gives `Forbidden`. -/
def getTicketHandler (db : Db) (orgId ticketId : String) : Except ApiError Ticket :=
  match findTicket db ticketId with
  | none => .error (ApiError.notFoundError "Ticket not found")
  | some ticket =>
    if ticket.organizationId ≠ orgId then
      .error (ApiError.forbiddenError "Access denied to this ticket")
    else .ok ticket

/-- `DELETE /:orgId/tickets/:ticketId` (`tickets.js` lines 393–427), behind
`requireRole(['OWNER', 'ADMIN'])`. -/
def deleteTicketHandler (db : Db) (userId : String) (membership : OrgMembership)
    (orgId ticketId : String) (auditOk : Bool) : Except ApiError Db :=
  if !([Role.OWNER, Role.ADMIN].contains membership.role) then
    .error (ApiError.forbiddenError "Requires one of: OWNER, ADMIN")
  else
    match findTicket db ticketId with
    | none => .error (ApiError.notFoundError "Ticket not found")
    | some ticket =>
      if ticket.organizationId ≠ orgId then
        .error (ApiError.forbiddenError "Access denied to this ticket")
      else
        let db1 : Db := { db with tickets := db.tickets.filter (fun t => !(t.id == ticketId)) }
        let db2 := createAuditLog db1
          { organizationId := orgId, userId := userId, ticketId := some ticketId,
            action := "TICKET_UPDATED",
            metadata := AuditMetadata.ticketDeleted ticket.title } auditOk
        .ok db2

/-- `prisma.orgMembership.count({ where: { organizationId, role: 'OWNER' } })`. -/
def ownerCount (memberships : List OrgMembership) (orgId : String) : Nat :=
  (memberships.filter (fun m => m.organizationId == orgId && m.role == Role.OWNER)).length

/-- `DELETE /:orgId/members/:userId` of the orgs router, behind `requireOrg`
and `requireRole(['OWNER', 'ADMIN'])`: the sole-owner guard runs only when
the requester removes themselves, and compares the organization's OWNER count
with 1; the store's delete on the unique key fails when the target membership
is absent. -/
def deleteMemberHandler (db : Db) (reqUserId orgId targetUserId : String)
    (auditOk : Bool) : Except ApiError Db :=
  match findMembership db.memberships reqUserId orgId with
  | none => .error (ApiError.forbiddenError "Access denied to this organization")
  | some membership =>
    if !([Role.OWNER, Role.ADMIN].contains membership.role) then
      .error (ApiError.forbiddenError "Requires one of: OWNER, ADMIN")
    else if reqUserId == targetUserId && ownerCount db.memberships orgId == 1 then
      .error (ApiError.validationError "Cannot remove the only owner" none)
    else if !(isMember db.memberships targetUserId orgId) then
      .error (ApiError.internalError "Record to delete does not exist")
    else
      let removed := db.memberships.filter
        (fun m => !(m.userId == targetUserId && m.organizationId == orgId))
      let db1 : Db := { db with memberships := removed }
      let db2 := createAuditLog db1
        { organizationId := orgId, userId := reqUserId, ticketId := none,
          action := "MEMBER_REMOVED",
          metadata := AuditMetadata.memberRemoved targetUserId } auditOk
      .ok db2

/-- The raw query of `GET /:orgId/tickets` after numeric coercion; `none`
is an absent parameter. -/
structure ListQueryRaw where
  status : Option String := none
  assigneeId : Option String := none
  creatorId : Option String := none
  page : Option Int := none
  limit : Option Int := none
deriving DecidableEq, Repr

/-- The query after zod parsing (defaults applied). -/
structure ListParams where
  status : Option String
  assigneeId : Option String
  creatorId : Option String
  page : Int
  limit : Int
deriving DecidableEq, Repr

/-- The zod schema of the list route (`tickets.js` lines 51–57): status in the
six-member enum, `page` positive (default 1), `limit` in 1..100 (default 10). -/
def parseListQuery (q : ListQueryRaw) : Except ApiError ListParams :=
  let statusOk :=
    match q.status with
    | some s => ticketStatusEnum.contains s
    | none => true
  let pageOk :=
    match q.page with
    | some p => decide (0 < p)
    | none => true
  let limitOk :=
    match q.limit with
    | some l => decide (1 ≤ l) && decide (l ≤ 100)
    | none => true
  if statusOk && pageOk && limitOk then
    .ok { status := q.status, assigneeId := q.assigneeId, creatorId := q.creatorId,
          page := q.page.getD 1, limit := q.limit.getD 10 }
  else
    .error (ApiError.validationError "Validation failed" none)

/-- The prisma `where` clause of the list route (`tickets.js` lines 68–74):
always the organization, plus each filter when present (and truthy). -/
def ticketMatches (params : ListParams) (orgId : String) (t : Ticket) : Bool :=
  t.organizationId == orgId &&
  (match params.status with
   | some s => t.status == s
   | none => true) &&
  (match params.assigneeId with
   | some a => if a == "" then true else t.assigneeId == some a
   | none => true) &&
  (match params.creatorId with
   | some c => if c == "" then true else t.creatorId == c
   | none => true)

/-- Insertion into a list sorted by `createdAt` descending. -/
def insertByCreatedAtDesc (t : Ticket) : List Ticket → List Ticket
  | [] => [t]
  | x :: xs =>
    if t.createdAt ≤ x.createdAt then x :: insertByCreatedAtDesc t xs
    else t :: x :: xs

/-- `orderBy: { createdAt: 'desc' }` of the list route. -/
def sortByCreatedAtDesc : List Ticket → List Ticket
  | [] => []
  | x :: xs => insertByCreatedAtDesc x (sortByCreatedAtDesc xs)

/-- The list route's response payload: items plus pagination metadata. -/
structure ListResult where
  data : List Ticket
  page : Int
  limit : Int
  total : Nat
  pages : Nat
deriving DecidableEq, Repr

/-- `GET /:orgId/tickets` (`tickets.js` lines 49–110): offset pagination with
`skip = (page - 1) * limit`, `take = limit`, and
`pages = Math.ceil(total / limit)`. -/
def listTicketsHandler (db : Db) (orgId : String) (q : ListQueryRaw) :
    Except ApiError ListResult :=
  match parseListQuery q with
  | .error e => .error e
  | .ok params =>
    let matching := db.tickets.filter (ticketMatches params orgId)
    let skip := ((params.page - 1) * params.limit).toNat
    let pageItems := ((sortByCreatedAtDesc matching).drop skip).take params.limit.toNat
    let total := matching.length
    .ok { data := pageItems, page := params.page, limit := params.limit,
          total := total,
          pages := (total + params.limit.toNat - 1) / params.limit.toNat }

/-- The primary outcome of a handler returning a store: `some` owner count on
success, `none` on failure. -/
def resultOwnerCount (r : Except ApiError Db) (orgId : String) : Option Nat :=
  match r with
  | .ok db => some (ownerCount db.memberships orgId)
  | .error _ => none

/-- Store with one OWNER and one ADMIN membership in `org1`. -/
def soleOwnerDb : Db :=
  { tickets := [],
    memberships := [{ userId := "owner1", organizationId := "org1", role := Role.OWNER },
                    { userId := "admin1", organizationId := "org1", role := Role.ADMIN }],
    auditLogs := [] }

/-- A ticket living in organization `orgB`. -/
def foreignTicket : Ticket :=
  { id := "t1", title := "T", description := "D", organizationId := "orgB",
    status := "OPEN", requiresApproval := false, creatorId := "u0",
    assigneeId := none, createdAt := 1, updatedAt := 1,
    resolvedAt := none, closedAt := none }

/-- Store holding only `foreignTicket`. -/
def foreignDb : Db := { tickets := [foreignTicket], memberships := [], auditLogs := [] }

/-- A ticket of `org1` titled `"A"`, last updated at tick 5. -/
def plainTicket : Ticket :=
  { id := "t1", title := "A", description := "D", organizationId := "org1",
    status := "OPEN", requiresApproval := false, creatorId := "u0",
    assigneeId := none, createdAt := 1, updatedAt := 5,
    resolvedAt := none, closedAt := none }

/-- Store holding only `plainTicket`, with no audit entries. -/
def plainDb : Db := { tickets := [plainTicket], memberships := [], auditLogs := [] }

/-- An ADMIN membership of `org1`. -/
def adminMembership : OrgMembership :=
  { userId := "u1", organizationId := "org1", role := Role.ADMIN }

/-- A minimal valid creation body asking for approval. -/
def approvalBody : CreateBody :=
  { title := "T", description := "D", requiresApproval := some true }

/-- The ticket `createTicketHandler` builds from `approvalBody`. -/
def approvalTicket : Ticket :=
  { id := "t1", title := "T", description := "D", organizationId := "org1",
    status := "OPEN", requiresApproval := true, creatorId := "u1",
    assigneeId := none, createdAt := 5, updatedAt := 5,
    resolvedAt := none, closedAt := none }

/-- The store after creating `approvalTicket` in an empty store. -/
def approvalDb : Db :=
  { tickets := [approvalTicket],
    memberships := [],
    auditLogs := [{ organizationId := "org1", userId := "u1", ticketId := some "t1",
                    action := "TICKET_CREATED",
                    metadata := AuditMetadata.ticketCreated "T" true none }] }

/-- A ticket of `org1` numbered `i`, created at tick `i`. -/
def numberedTicket (i : Nat) : Ticket :=
  { id := toString i, title := "T", description := "D", organizationId := "org1",
    status := "OPEN", requiresApproval := false, creatorId := "u0",
    assigneeId := none, createdAt := i, updatedAt := i,
    resolvedAt := none, closedAt := none }

/-- Store with 25 tickets in `org1`. -/
def db25 : Db :=
  { tickets := (List.range 25).map numberedTicket, memberships := [], auditLogs := [] }

/-- A ticket of `org1` in progress, with both milestone timestamps unset. -/
def progressTicket : Ticket :=
  { id := "t1", title := "A", description := "D", organizationId := "org1",
    status := "IN_PROGRESS", requiresApproval := false, creatorId := "u0",
    assigneeId := none, createdAt := 1, updatedAt := 5,
    resolvedAt := none, closedAt := none }

/-- Store holding only `progressTicket`. -/
def progressDb : Db :=
  { tickets := [progressTicket], memberships := [], auditLogs := [] }

/-- `progressTicket` after the RESOLVED transition at tick 9. -/
def resolvedTicket : Ticket :=
  { progressTicket with status := "RESOLVED", resolvedAt := some 9, updatedAt := 9 }

/-- The store after resolving `progressTicket` at tick 9, audit recorded. -/
def resolvedDb : Db :=
  { tickets := [resolvedTicket], memberships := [],
    auditLogs := [{ organizationId := "org1", userId := "u1", ticketId := some "t1",
                    action := "STATUS_CHANGED",
                    metadata := AuditMetadata.ticketChanges
                      { oldStatus := some "IN_PROGRESS",
                        newStatus := some "RESOLVED" } }] }

/-- The list response for page 1, limit 10 over `db25`: the ten most recently
created tickets, total 25, three pages. -/
def listResult25 : ListResult :=
  { data := ((List.range 25).reverse.take 10).map numberedTicket,
    page := 1, limit := 10, total := 25, pages := 3 }

/-- C1: a pair (current, requested) outside the table is rejected with a
`ValidationError` carrying current status, requested status and the legal
target set for every non-VIEWER role, while a VIEWER is rejected with
`Forbidden` for every requested status distinct from the current one,
independently of table membership. -/
theorem validateStatusTransition_rejections
    (current requested : String) (role : Role)
    (hne : requested ≠ current) :
    (requested ∉ transitionRules current → role ≠ Role.VIEWER →
      validateStatusTransition current requested role =
        .error (ApiError.validationError
          ("Cannot transition from " ++ current ++ " to " ++ requested)
          (some { currentStatus := current, newStatus := requested,
                  validTransitions := transitionRules current }))) ∧
    (role = Role.VIEWER →
      validateStatusTransition current requested role =
        .error (ApiError.forbiddenError "Viewers cannot change ticket status")) := by
  constructor
  · intro hnot hrole
    have hc : (transitionRules current).contains requested = false := by
      simpa using hnot
    simp [validateStatusTransition, hrole, hc]
    exact hnot
  · intro hrole
    simp [validateStatusTransition, hrole]

/-- Witness for C1 at current `IN_PROGRESS`, requested `OPEN` (not a legal
edge), for role ADMIN, and for role VIEWER. -/
theorem validateStatusTransition_rejections_witness :
    ("OPEN" : String) ≠ "IN_PROGRESS" ∧
    "OPEN" ∉ transitionRules "IN_PROGRESS" ∧
    Role.ADMIN ≠ Role.VIEWER ∧
    validateStatusTransition "IN_PROGRESS" "OPEN" Role.ADMIN =
      .error (ApiError.validationError "Cannot transition from IN_PROGRESS to OPEN"
        (some { currentStatus := "IN_PROGRESS", newStatus := "OPEN",
                validTransitions := ["RESOLVED", "CLOSED"] })) ∧
    validateStatusTransition "IN_PROGRESS" "OPEN" Role.VIEWER =
      .error (ApiError.forbiddenError "Viewers cannot change ticket status") := by
  refine ⟨by decide, by decide, by decide, ?_, ?_⟩
  · have h := (validateStatusTransition_rejections "IN_PROGRESS" "OPEN" Role.ADMIN
      (by decide)).1 (by decide) (by decide)
    simpa [transitionRules] using h
  · exact (validateStatusTransition_rejections "IN_PROGRESS" "OPEN" Role.VIEWER
      (by decide)).2 rfl

/-- C2: for ADMIN, `OPEN → CLOSED`, `OPEN → IN_PROGRESS` and
`OPEN → PENDING_APPROVAL` are accepted, while `IN_PROGRESS → OPEN` is rejected
with a `ValidationError`. -/
theorem admin_open_transitions :
    validateStatusTransition "OPEN" "CLOSED" Role.ADMIN = .ok true ∧
    validateStatusTransition "OPEN" "IN_PROGRESS" Role.ADMIN = .ok true ∧
    validateStatusTransition "OPEN" "PENDING_APPROVAL" Role.ADMIN = .ok true ∧
    validateStatusTransition "IN_PROGRESS" "OPEN" Role.ADMIN =
      .error (ApiError.validationError "Cannot transition from IN_PROGRESS to OPEN"
        (some { currentStatus := "IN_PROGRESS", newStatus := "OPEN",
                validTransitions := ["RESOLVED", "CLOSED"] })) := by
  refine ⟨?_, ?_, ?_, ?_⟩ <;> rfl

/-- C7: a created ticket's status is `OPEN`, independent of the
`requiresApproval` flag supplied in the request. -/
theorem createTicket_status_open
    (db : Db) (userId orgId : String) (body : CreateBody) (newId : String)
    (now : Nat) (auditOk : Bool) (t : Ticket) (db' : Db)
    (h : createTicketHandler db userId orgId body newId now auditOk = .ok (t, db')) :
    t.status = "OPEN" := by
  unfold createTicketHandler at h
  split at h
  · cases h
  · split at h
    · split at h
      · simp only [Except.ok.injEq, Prod.mk.injEq] at h
        rw [← h.1]
      · cases h
    · simp only [Except.ok.injEq, Prod.mk.injEq] at h
      rw [← h.1]

/-- Witness for C7: creating with `requiresApproval = true` yields an `OPEN`
ticket. -/
theorem createTicket_status_open_witness :
    createTicketHandler { tickets := [], memberships := [], auditLogs := [] }
      "u1" "org1" approvalBody "t1" 5 true = .ok (approvalTicket, approvalDb) ∧
    approvalTicket.status = "OPEN" :=
  ⟨by rfl,
   createTicket_status_open { tickets := [], memberships := [], auditLogs := [] }
     "u1" "org1" approvalBody "t1" 5 true approvalTicket approvalDb (by rfl)⟩

/-- Counterexample to C5: a ticket of another organization yields `Forbidden`,
an absent ticket yields `NotFound` — the two cases are distinguishable, so the
cross-tenant lookup is not treated identically to absence. -/
theorem crossTenant_distinguishable_from_absent :
    getTicketHandler foreignDb "orgA" "t1" =
      .error (ApiError.forbiddenError "Access denied to this ticket") ∧
    getTicketHandler foreignDb "orgA" "t2" =
      .error (ApiError.notFoundError "Ticket not found") ∧
    (ApiError.forbiddenError "Access denied to this ticket") ≠
      (ApiError.notFoundError "Ticket not found") := by
  refine ⟨by rfl, by rfl, by decide⟩

/-- C5 amended: in all three id lookups (get, update, delete) an absent ticket
yields `NotFound` while a ticket of a different organization yields
`Forbidden` — the cross-tenant case is distinguishable from absence. -/
theorem ticketLookup_crossTenant_forbidden
    (db : Db) (userId : String) (membership : OrgMembership)
    (orgId ticketId : String) (body : PatchBody) (now : Nat) (auditOk : Bool)
    (hschema : patchSchemaValid body = true)
    (hrole : membership.role = Role.ADMIN) :
    (findTicket db ticketId = none →
      getTicketHandler db orgId ticketId =
        .error (ApiError.notFoundError "Ticket not found") ∧
      patchTicketHandler db userId membership orgId ticketId body now auditOk =
        .error (ApiError.notFoundError "Ticket not found") ∧
      deleteTicketHandler db userId membership orgId ticketId auditOk =
        .error (ApiError.notFoundError "Ticket not found")) ∧
    (∀ t, findTicket db ticketId = some t → t.organizationId ≠ orgId →
      getTicketHandler db orgId ticketId =
        .error (ApiError.forbiddenError "Access denied to this ticket") ∧
      patchTicketHandler db userId membership orgId ticketId body now auditOk =
        .error (ApiError.forbiddenError "Access denied to this ticket") ∧
      deleteTicketHandler db userId membership orgId ticketId auditOk =
        .error (ApiError.forbiddenError "Access denied to this ticket")) := by
  constructor
  · intro hnone
    refine ⟨?_, ?_, ?_⟩
    · simp [getTicketHandler, hnone]
    · simp [patchTicketHandler, hschema, hnone]
    · simp [deleteTicketHandler, hrole, hnone]
  · intro t hsome hne
    refine ⟨?_, ?_, ?_⟩
    · simp [getTicketHandler, hsome, hne]
    · simp [patchTicketHandler, hschema, hsome, hne]
    · simp [deleteTicketHandler, hrole, hsome, hne]

/-- Witness for the amended C5 on `foreignDb`. -/
theorem ticketLookup_crossTenant_forbidden_witness :
    patchSchemaValid {} = true ∧ adminMembership.role = Role.ADMIN ∧
    findTicket foreignDb "t2" = none ∧
    findTicket foreignDb "t1" = some foreignTicket ∧
    foreignTicket.organizationId ≠ "orgA" ∧
    getTicketHandler foreignDb "orgA" "t2" =
      .error (ApiError.notFoundError "Ticket not found") ∧
    getTicketHandler foreignDb "orgA" "t1" =
      .error (ApiError.forbiddenError "Access denied to this ticket") := by
  refine ⟨by rfl, by rfl, by rfl, by rfl, by decide, ?_, ?_⟩
  · exact ((ticketLookup_crossTenant_forbidden foreignDb "u1" adminMembership
      "orgA" "t2" {} 0 true (by rfl) (by rfl)).1 (by rfl)).1
  · exact ((ticketLookup_crossTenant_forbidden foreignDb "u1" adminMembership
      "orgA" "t1" {} 0 true (by rfl) (by rfl)).2 foreignTicket (by rfl) (by decide)).1

/-- Counterexample to C3: in a store whose `org1` has exactly one OWNER, an
ADMIN's request to remove that sole OWNER succeeds, leaving the organization
with zero OWNER memberships. -/
theorem soleOwner_removable_by_other_member :
    ownerCount soleOwnerDb.memberships "org1" = 1 ∧
    (findMembership soleOwnerDb.memberships "owner1" "org1").map (fun m => m.role) =
      some Role.OWNER ∧
    resultOwnerCount (deleteMemberHandler soleOwnerDb "admin1" "org1" "owner1" true)
      "org1" = some 0 := by
  refine ⟨by rfl, by rfl, by rfl⟩

/-- C3 amended: the sole-owner guard fires only when the target is the
requester themselves and the organization's OWNER count is exactly one; any
other removal of an existing membership succeeds — in particular the sole
OWNER can be removed by a different OWNER/ADMIN member. -/
theorem deleteMember_guard_characterization
    (db : Db) (reqUserId orgId targetUserId : String) (auditOk : Bool)
    (membership : OrgMembership)
    (hfind : findMembership db.memberships reqUserId orgId = some membership)
    (hrole : membership.role = Role.OWNER ∨ membership.role = Role.ADMIN) :
    (reqUserId = targetUserId → ownerCount db.memberships orgId = 1 →
      deleteMemberHandler db reqUserId orgId targetUserId auditOk =
        .error (ApiError.validationError "Cannot remove the only owner" none)) ∧
    ((reqUserId ≠ targetUserId ∨ ownerCount db.memberships orgId ≠ 1) →
      isMember db.memberships targetUserId orgId = true →
      (deleteMemberHandler db reqUserId orgId targetUserId auditOk).isOk = true) := by
  constructor
  · intro heq hcount
    subst heq
    rcases hrole with h | h <;>
      simp [deleteMemberHandler, hfind, h, hcount]
  · intro hor hmem
    rcases hrole with h | h <;> rcases hor with h2 | h2 <;>
      simp [deleteMemberHandler, hfind, h, h2, hmem, Except.isOk, Except.toBool]

/-- Witness for the amended C3 on `soleOwnerDb`: the OWNER's self-removal is
rejected, the ADMIN's removal of the sole OWNER succeeds. -/
theorem deleteMember_guard_characterization_witness :
    findMembership soleOwnerDb.memberships "owner1" "org1" =
      some { userId := "owner1", organizationId := "org1", role := Role.OWNER } ∧
    deleteMemberHandler soleOwnerDb "owner1" "org1" "owner1" true =
      .error (ApiError.validationError "Cannot remove the only owner" none) ∧
    (deleteMemberHandler soleOwnerDb "admin1" "org1" "owner1" true).isOk = true := by
  refine ⟨by rfl, ?_, ?_⟩
  · exact (deleteMember_guard_characterization soleOwnerDb "owner1" "org1" "owner1" true
      { userId := "owner1", organizationId := "org1", role := Role.OWNER }
      (by rfl) (Or.inl rfl)).1 rfl (by rfl)
  · exact (deleteMember_guard_characterization soleOwnerDb "admin1" "org1" "owner1" true
      { userId := "admin1", organizationId := "org1", role := Role.ADMIN }
      (by rfl) (Or.inr rfl)).2 (Or.inl (by decide)) (by rfl)

/-- C9: audit-write failure is swallowed — `createAuditLog` is total and
leaves the store unchanged on failure, and the primary outcome of every
handler that records an audit entry (result value, or which error is thrown)
is the same whether the audit store write succeeds or fails. -/
theorem audit_failure_never_propagates
    (db : Db) (userId orgId newId targetUserId ticketId : String)
    (membership : OrgMembership) (cbody : CreateBody) (pbody : PatchBody) (now : Nat) :
    (∀ entry, createAuditLog db entry false = db) ∧
    ((createTicketHandler db userId orgId cbody newId now true).map Prod.fst =
      (createTicketHandler db userId orgId cbody newId now false).map Prod.fst) ∧
    ((patchTicketHandler db userId membership orgId ticketId pbody now true).map Prod.fst =
      (patchTicketHandler db userId membership orgId ticketId pbody now false).map Prod.fst) ∧
    ((deleteTicketHandler db userId membership orgId ticketId true).map (fun _ => ()) =
      (deleteTicketHandler db userId membership orgId ticketId false).map (fun _ => ())) ∧
    ((deleteMemberHandler db userId orgId targetUserId true).map (fun _ => ()) =
      (deleteMemberHandler db userId orgId targetUserId false).map (fun _ => ())) := by
  refine ⟨fun entry => rfl, ?_, ?_, ?_, ?_⟩
  · unfold createTicketHandler
    split
    · rfl
    · split
      · split
        · rfl
        · rfl
      · rfl
  · unfold patchTicketHandler
    split
    · rfl
    · split
      · rfl
      · split
        · rfl
        · split
          · rfl
          · split
            · rfl
            · split
              · rfl
              · dsimp only
                split
                · rfl
                · rfl
  · unfold deleteTicketHandler
    split
    · rfl
    · split
      · rfl
      · split
        · rfl
        · rfl
  · unfold deleteMemberHandler
    split
    · rfl
    · split
      · rfl
      · split
        · rfl
        · split
          · rfl
          · rfl

/-- A parsed limit is at least 1 (zod `min(1)` or the default 10). -/
theorem parseListQuery_limit_pos (q : ListQueryRaw) (params : ListParams)
    (h : parseListQuery q = .ok params) : 1 ≤ params.limit := by
  obtain ⟨qs, qa, qc, qp, ql⟩ := q
  unfold parseListQuery at h
  cases qs <;> cases qp <;> cases ql <;>
    dsimp only at h <;>
    split at h <;>
    first
      | (simp only [Except.ok.injEq] at h
         subst h
         simp_all only [Bool.and_eq_true, Bool.true_and, Bool.and_true,
           decide_eq_true_eq, Option.getD]
         try omega)
      | cases h

/-- C8: a limit above 100 is rejected with a `ValidationFailure`; on success
the reported page count is the ceiling of total over limit (characterized
order-theoretically); an absent limit defaults to 10 (and page to 1); and on
25 matching tickets, page 1 with limit 10 returns 10 items, total 25 and
3 pages. -/
theorem listTickets_pagination (db : Db) (orgId : String) (q : ListQueryRaw) :
    (∀ l, q.limit = some l → 100 < l →
      listTicketsHandler db orgId q =
        .error (ApiError.validationError "Validation failed" none)) ∧
    (∀ r, listTicketsHandler db orgId q = .ok r →
      r.total ≤ r.pages * r.limit.toNat ∧
      r.pages * r.limit.toNat < r.total + r.limit.toNat) ∧
    (parseListQuery {} = .ok { status := none, assigneeId := none, creatorId := none,
                               page := 1, limit := 10 }) ∧
    ((listTicketsHandler db25 "org1" { page := some 1, limit := some 10 }).map
      (fun r => (r.data.length, r.total, r.pages)) = .ok (10, 25, 3)) := by
  refine ⟨?_, ?_, by rfl, by rfl⟩
  · intro l hl hgt
    have h100 : (decide (l ≤ 100)) = false := by
      simp only [decide_eq_false_iff_not]
      omega
    unfold listTicketsHandler parseListQuery
    rw [hl]
    simp [h100]
  · intro r hr
    unfold listTicketsHandler at hr
    cases hp : parseListQuery q with
    | error e => rw [hp] at hr; cases hr
    | ok params =>
      rw [hp] at hr
      have hlim : 1 ≤ params.limit := parseListQuery_limit_pos q params hp
      simp only [Except.ok.injEq] at hr
      subst hr
      have hL : 1 ≤ params.limit.toNat := by omega
      set t := (db.tickets.filter (ticketMatches params orgId)).length with ht
      set L := params.limit.toNat with hLdef
      have h1 : L * ((t + L - 1) / L) + (t + L - 1) % L = t + L - 1 :=
        Nat.div_add_mod _ _
      have h2 : (t + L - 1) % L < L := Nat.mod_lt _ (by omega)
      rw [Nat.mul_comm] at h1
      simp only
      revert h1 h2
      generalize ((t + L - 1) / L) * L = A
      generalize (t + L - 1) % L = m
      intro h1 h2
      omega

/-- Witness for C8: limit 200 is rejected over `db25`, and the ceiling bound
holds at the concrete page-1/limit-10 response. -/
theorem listTickets_pagination_witness :
    (listTicketsHandler db25 "org1" { limit := some 200 } =
      .error (ApiError.validationError "Validation failed" none)) ∧
    (listResult25.total ≤ listResult25.pages * listResult25.limit.toNat ∧
      listResult25.pages * listResult25.limit.toNat <
        listResult25.total + listResult25.limit.toNat) :=
  ⟨(listTickets_pagination db25 "org1" { limit := some 200 }).1 200 rfl (by omega),
   (listTickets_pagination db25 "org1" { page := some 1, limit := some 10 }).2.1
     listResult25 (by rfl)⟩

/-- `stepTitleDescr` never touches the status or timestamp fields of
`updateData`, nor the recorded old status. -/
theorem stepTitleDescr_preserves (m : OrgMembership) (t : Ticket) (b : PatchBody)
    (acc acc' : UpdAcc) (h : stepTitleDescr m t b acc = .ok acc') :
    acc'.upd.status = acc.upd.status ∧
    acc'.upd.resolvedAt = acc.upd.resolvedAt ∧
    acc'.upd.closedAt = acc.upd.closedAt ∧
    acc'.meta.oldStatus = acc.meta.oldStatus := by
  unfold stepTitleDescr at h
  repeat' split at h
  all_goals
    first
      | (simp only [Except.ok.injEq] at h
         subst h
         exact ⟨rfl, rfl, rfl, rfl⟩)
      | cases h

/-- `stepAssignee` never touches the status or timestamp fields of
`updateData`, nor the recorded old status. -/
theorem stepAssignee_preserves (ms : List OrgMembership) (orgId : String)
    (t : Ticket) (b : PatchBody) (acc acc' : UpdAcc)
    (h : stepAssignee ms orgId t b acc = .ok acc') :
    acc'.upd.status = acc.upd.status ∧
    acc'.upd.resolvedAt = acc.upd.resolvedAt ∧
    acc'.upd.closedAt = acc.upd.closedAt ∧
    acc'.meta.oldStatus = acc.meta.oldStatus := by
  unfold stepAssignee at h
  repeat' split at h
  all_goals
    first
      | (simp only [Except.ok.injEq] at h
         subst h
         exact ⟨rfl, rfl, rfl, rfl⟩)
      | cases h

/-- `stepApproval` never touches the status or timestamp fields of
`updateData`, nor the recorded old status. -/
theorem stepApproval_preserves (t : Ticket) (b : PatchBody) (acc : UpdAcc) :
    (stepApproval t b acc).upd.status = acc.upd.status ∧
    (stepApproval t b acc).upd.resolvedAt = acc.upd.resolvedAt ∧
    (stepApproval t b acc).upd.closedAt = acc.upd.closedAt ∧
    (stepApproval t b acc).meta.oldStatus = acc.meta.oldStatus := by
  unfold stepApproval
  repeat' split
  all_goals exact ⟨rfl, rfl, rfl, rfl⟩


/-- Characterization of `stepStatus` on success: each timestamp field of
`updateData` is either untouched or stamped with `now` precisely when the
corresponding ticket timestamp was unset; a requested status distinct from
the current one lands in `updateData` (with its timestamp effect); and a
status in `updateData` can only come from the body. -/
theorem stepStatus_spec (role : Role) (t : Ticket) (b : PatchBody) (now : Nat)
    (acc acc' : UpdAcc) (h : stepStatus role t b now acc = .ok acc') :
    (acc'.upd.resolvedAt = acc.upd.resolvedAt ∨
      (acc'.upd.resolvedAt = some now ∧ t.resolvedAt = none)) ∧
    (acc'.upd.closedAt = acc.upd.closedAt ∨
      (acc'.upd.closedAt = some now ∧ t.closedAt = none)) ∧
    (∀ s, b.status = some s → s ≠ t.status →
      acc'.upd.status = some s ∧
      (s = "RESOLVED" → t.resolvedAt = none → acc'.upd.resolvedAt = some now) ∧
      (s = "CLOSED" → t.closedAt = none → acc'.upd.closedAt = some now)) ∧
    (∀ s, acc'.upd.status = some s → acc.upd.status = some s ∨ b.status = some s) := by
  unfold stepStatus at h
  cases hb : b.status with
  | none =>
    rw [hb] at h
    simp only [Except.ok.injEq] at h
    subst h
    refine ⟨Or.inl rfl, Or.inl rfl, ?_, fun s hs => Or.inl hs⟩
    intro s hs
    cases hs
  | some s =>
    rw [hb] at h
    dsimp only at h
    split at h
    · cases hv : validateStatusTransition t.status s role with
      | error e => rw [hv] at h; cases h
      | ok v =>
        rw [hv] at h
        simp only [Except.ok.injEq] at h
        subst h
        by_cases hR : (s == "RESOLVED" && t.resolvedAt.isNone) = true
        · by_cases hC : (s == "CLOSED" && t.closedAt.isNone) = true
          · exfalso
            simp only [Bool.and_eq_true, beq_iff_eq] at hR hC
            rw [hR.1] at hC
            exact absurd hC.1 (by decide)
          · have hR' : s = "RESOLVED" ∧ t.resolvedAt = none := by
              simpa [Option.isNone_iff_eq_none] using hR
            refine ⟨Or.inr ⟨by simp [hR, hC], hR'.2⟩,
                    Or.inl (by simp [hR, hC]), ?_, ?_⟩
            · intro s' hs' hne'
              cases hs'
              refine ⟨by simp [hR, hC], fun _ _ => by simp [hR, hC], ?_⟩
              intro hsC hcn
              rw [hR'.1] at hsC
              exact absurd hsC (by decide)
            · intro s' hs'
              simp [hR, hC] at hs'
              subst hs'
              exact Or.inr rfl
        · by_cases hC : (s == "CLOSED" && t.closedAt.isNone) = true
          · have hC' : s = "CLOSED" ∧ t.closedAt = none := by
              simpa [Option.isNone_iff_eq_none] using hC
            refine ⟨Or.inl (by simp [hR, hC]),
                    Or.inr ⟨by simp [hR, hC], hC'.2⟩, ?_, ?_⟩
            · intro s' hs' hne'
              cases hs'
              refine ⟨by simp [hR, hC], ?_, fun _ _ => by simp [hR, hC]⟩
              intro hsR hrn
              rw [hC'.1] at hsR
              exact absurd hsR (by decide)
            · intro s' hs'
              simp [hR, hC] at hs'
              subst hs'
              exact Or.inr rfl
          · refine ⟨Or.inl (by simp [hR, hC]), Or.inl (by simp [hR, hC]), ?_, ?_⟩
            · intro s' hs' hne'
              cases hs'
              refine ⟨by simp [hR, hC], ?_, ?_⟩
              · intro hsR hrn
                exact absurd (by simp [hsR, hrn] : (s == "RESOLVED" && t.resolvedAt.isNone) = true) hR
              · intro hsC hcn
                exact absurd (by simp [hsC, hcn] : (s == "CLOSED" && t.closedAt.isNone) = true) hC
            · intro s' hs'
              simp [hR, hC] at hs'
              subst hs'
              exact Or.inr rfl
    · rename_i hcond
      simp only [Except.ok.injEq] at h
      subst h
      refine ⟨Or.inl rfl, Or.inl rfl, ?_, fun s' hs => Or.inl hs⟩
      intro s' hs' hne'
      cases hs'
      exact absurd (not_not.mp hcond) hne'

/-- An empty `updateData` has no status entry. -/
theorem updIsEmpty_status_none (u : UpdateData) (h : updIsEmpty u = true) :
    u.status = none := by
  unfold updIsEmpty at h
  simp only [Bool.and_eq_true, Option.isNone_iff_eq_none] at h
  exact h.1.1.1.1.2

/-- C4: across a ticket update, a set `resolvedAt` or `closedAt` is never
cleared or changed, and entering RESOLVED (resp. CLOSED) from another status
stamps the corresponding timestamp exactly when it was not yet set. -/
theorem patch_timestamps_monotonic
    (db : Db) (userId : String) (membership : OrgMembership)
    (orgId ticketId : String) (body : PatchBody) (now : Nat) (auditOk : Bool)
    (ticket t' : Ticket) (db' : Db)
    (hfind : findTicket db ticketId = some ticket)
    (hok : patchTicketHandler db userId membership orgId ticketId body now auditOk =
      .ok (t', db')) :
    (∀ r, ticket.resolvedAt = some r → t'.resolvedAt = some r) ∧
    (∀ c, ticket.closedAt = some c → t'.closedAt = some c) ∧
    (body.status = some "RESOLVED" → ticket.status ≠ "RESOLVED" →
      ticket.resolvedAt = none → t'.resolvedAt = some now) ∧
    (body.status = some "CLOSED" → ticket.status ≠ "CLOSED" →
      ticket.closedAt = none → t'.closedAt = some now) := by
  unfold patchTicketHandler at hok
  split at hok
  · cases hok
  · rw [hfind] at hok
    dsimp only at hok
    split at hok
    · cases hok
    · cases h1 : stepTitleDescr membership ticket body { upd := {}, meta := {} } with
      | error e => rw [h1] at hok; cases hok
      | ok acc1 =>
        rw [h1] at hok
        dsimp only at hok
        cases h2 : stepStatus membership.role ticket body now acc1 with
        | error e => rw [h2] at hok; cases hok
        | ok acc2 =>
          rw [h2] at hok
          dsimp only at hok
          cases h3 : stepAssignee db.memberships orgId ticket body acc2 with
          | error e => rw [h3] at hok; cases hok
          | ok acc3 =>
            rw [h3] at hok
            dsimp only at hok
            obtain ⟨p1s, p1r, p1c, p1m⟩ :=
              stepTitleDescr_preserves membership ticket body _ acc1 h1
            obtain ⟨q1, q2, q3, q4⟩ :=
              stepStatus_spec membership.role ticket body now acc1 acc2 h2
            obtain ⟨r1s, r1r, r1c, r1m⟩ :=
              stepAssignee_preserves db.memberships orgId ticket body acc2 acc3 h3
            obtain ⟨a4s, a4r, a4c, a4m⟩ := stepApproval_preserves ticket body acc3
            split at hok
            · rename_i hEmpty
              simp only [Except.ok.injEq, Prod.mk.injEq] at hok
              obtain ⟨hT, hD⟩ := hok
              subst hT
              subst hD
              refine ⟨fun r hr => hr, fun c hc => hc, ?_, ?_⟩
              · intro hb hne hres
                exfalso
                have hst : acc2.upd.status = some "RESOLVED" := (q3 "RESOLVED" hb (Ne.symm hne)).1
                have hst4 : (stepApproval ticket body acc3).upd.status =
                    some "RESOLVED" := by rw [a4s, r1s, hst]
                have hnone := updIsEmpty_status_none _ hEmpty
                rw [hst4] at hnone
                cases hnone
              · intro hb hne hcl
                exfalso
                have hst : acc2.upd.status = some "CLOSED" := (q3 "CLOSED" hb (Ne.symm hne)).1
                have hst4 : (stepApproval ticket body acc3).upd.status =
                    some "CLOSED" := by rw [a4s, r1s, hst]
                have hnone := updIsEmpty_status_none _ hEmpty
                rw [hst4] at hnone
                cases hnone
            · simp only [Except.ok.injEq, Prod.mk.injEq] at hok
              obtain ⟨hT, hD⟩ := hok
              subst hT
              subst hD
              refine ⟨?_, ?_, ?_, ?_⟩
              · intro r hr
                rcases q1 with hq | ⟨hq, hnone⟩
                · have hu : (stepApproval ticket body acc3).upd.resolvedAt = none := by
                    rw [a4r, r1r, hq, p1r]
                  simp [applyUpdate, hu, hr]
                · rw [hnone] at hr
                  cases hr
              · intro c hc
                rcases q2 with hq | ⟨hq, hnone⟩
                · have hu : (stepApproval ticket body acc3).upd.closedAt = none := by
                    rw [a4c, r1c, hq, p1c]
                  simp [applyUpdate, hu, hc]
                · rw [hnone] at hc
                  cases hc
              · intro hb hne hres
                have hq := (q3 "RESOLVED" hb (Ne.symm hne)).2.1 rfl hres
                have hu : (stepApproval ticket body acc3).upd.resolvedAt = some now := by
                  rw [a4r, r1r, hq]
                simp [applyUpdate, hu]
              · intro hb hne hcl
                have hq := (q3 "CLOSED" hb (Ne.symm hne)).2.2 rfl hcl
                have hu : (stepApproval ticket body acc3).upd.closedAt = some now := by
                  rw [a4c, r1c, hq]
                simp [applyUpdate, hu]

/-- Witness for C4: resolving `progressTicket` at tick 9 stamps
`resolvedAt := 9`; a ticket with `resolvedAt` already set keeps it. -/
theorem patch_timestamps_monotonic_witness :
    findTicket progressDb "t1" = some progressTicket ∧
    patchTicketHandler progressDb "u1" adminMembership "org1" "t1"
      { status := some "RESOLVED" } 9 true = .ok (resolvedTicket, resolvedDb) ∧
    resolvedTicket.resolvedAt = some 9 := by
  refine ⟨by rfl, by rfl, ?_⟩
  exact (patch_timestamps_monotonic progressDb "u1" adminMembership "org1" "t1"
      { status := some "RESOLVED" } 9 true progressTicket resolvedTicket resolvedDb
      (by rfl) (by rfl)).2.2.1 rfl (by decide) rfl

/-- Counterexample to C6: a payload repeating the ticket's current title
produces zero net change field-by-field, yet the update writes an audit entry
and bumps `updatedAt` (title and description are not compared against the
current values before being put into `updateData`). -/
theorem patch_sameTitle_writes_audit :
    ({ title := some "A" } : PatchBody).title = some plainTicket.title ∧
    plainTicket.updatedAt = 5 ∧
    plainDb.auditLogs.length = 0 ∧
    (patchTicketHandler plainDb "u1" adminMembership "org1" "t1"
        { title := some "A" } 99 true).map
      (fun r => (r.1.updatedAt, r.2.auditLogs.length)) = .ok (99, 1) := by
  refine ⟨by rfl, by rfl, by rfl, by rfl⟩

/-- C6 amended: a payload with no title and no description whose remaining
fields repeat the current values (status equal to the current one, assignee
field absent or repeating the current assignee — with the membership check
passing on a truthy repeat — and `requiresApproval` absent or equal) produces
an empty `updateData`: the handler returns the unmodified ticket and the
unmodified store, so no audit entry is written and `updatedAt` is untouched.
A present title or description always counts as a change, even when equal to
the current value. -/
theorem patch_noDelta_noop
    (db : Db) (userId : String) (membership : OrgMembership)
    (orgId ticketId : String) (body : PatchBody) (now : Nat) (auditOk : Bool)
    (ticket : Ticket)
    (hschema : patchSchemaValid body = true)
    (hfind : findTicket db ticketId = some ticket)
    (horg : ticket.organizationId = orgId)
    (htitle : body.title = none)
    (hdesc : body.description = none)
    (hstatus : body.status = none ∨ body.status = some ticket.status)
    (hassign : body.assigneeId = none ∨
      (body.assigneeId = some ticket.assigneeId ∧
        (optTruthy ticket.assigneeId = true →
          isMember db.memberships (ticket.assigneeId.getD "") orgId = true)))
    (happr : body.requiresApproval = none ∨
      body.requiresApproval = some ticket.requiresApproval) :
    patchTicketHandler db userId membership orgId ticketId body now auditOk =
      .ok (ticket, db) := by
  have h1 : stepTitleDescr membership ticket body { upd := {}, meta := {} } =
      .ok { upd := {}, meta := {} } := by
    unfold stepTitleDescr
    simp [htitle, hdesc]
  have h2 : stepStatus membership.role ticket body now { upd := {}, meta := {} } =
      .ok { upd := {}, meta := {} } := by
    unfold stepStatus
    rcases hstatus with h | h
    · rw [h]
    · rw [h]
      simp
  have h3 : stepAssignee db.memberships orgId ticket body { upd := {}, meta := {} } =
      .ok { upd := {}, meta := {} } := by
    unfold stepAssignee
    rcases hassign with h | ⟨h, hck⟩
    · rw [h]
    · rw [h]
      dsimp only
      by_cases ht : optTruthy ticket.assigneeId = true
      · simp [ht, hck ht]
      · simp [ht]
  have h4 : stepApproval ticket body { upd := {}, meta := {} } =
      { upd := {}, meta := {} } := by
    unfold stepApproval
    rcases happr with h | h
    · rw [h]
    · rw [h]
      simp
  unfold patchTicketHandler
  rw [hschema, hfind]
  dsimp only
  rw [h1]
  dsimp only
  rw [h2]
  dsimp only
  rw [h3]
  dsimp only
  rw [h4]
  simp [horg, updIsEmpty]

/-- Witness for the amended C6: the all-absent payload leaves `plainTicket`
and its store untouched. -/
theorem patch_noDelta_noop_witness :
    patchSchemaValid {} = true ∧
    findTicket plainDb "t1" = some plainTicket ∧
    plainTicket.organizationId = "org1" ∧
    patchTicketHandler plainDb "u1" adminMembership "org1" "t1" {} 99 true =
      .ok (plainTicket, plainDb) := by
  refine ⟨by rfl, by rfl, by rfl, ?_⟩
  exact patch_noDelta_noop plainDb "u1" adminMembership "org1" "t1" {} 99 true
    plainTicket (by rfl) (by rfl) (by rfl) (by rfl) (by rfl)
    (Or.inl rfl) (Or.inl rfl) (Or.inl rfl)

/-- C10: `REJECTED` is listed as a target of `PENDING_APPROVAL` in the
transition table yet lies outside the declared six-member status enum; the
PATCH schema admits only enum statuses, so an accepted update of a ticket
whose status is in the enum keeps the status in the enum (the REJECTED edge
is unreachable), and creation starts in the enum as well. -/
theorem rejected_unreachable :
    ("REJECTED" ∈ transitionRules "PENDING_APPROVAL") ∧
    ("REJECTED" ∉ ticketStatusEnum) ∧
    (∀ body : PatchBody, patchSchemaValid body = true →
      ∀ s, body.status = some s → s ∈ ticketStatusEnum) ∧
    (∀ db userId membership orgId ticketId body now auditOk ticket t' db',
      findTicket db ticketId = some ticket →
      ticket.status ∈ ticketStatusEnum →
      patchTicketHandler db userId membership orgId ticketId body now auditOk =
        .ok (t', db') →
      t'.status ∈ ticketStatusEnum) ∧
    (∀ db userId orgId body newId now auditOk t db',
      createTicketHandler db userId orgId body newId now auditOk = .ok (t, db') →
      t.status ∈ ticketStatusEnum) := by
  have hstat : ∀ body : PatchBody, patchSchemaValid body = true →
      ∀ s, body.status = some s → s ∈ ticketStatusEnum := by
    intro body hval s hs
    unfold patchSchemaValid at hval
    rw [hs] at hval
    dsimp only at hval
    simp only [Bool.and_eq_true] at hval
    simpa using hval.2
  refine ⟨by decide, by decide, hstat, ?_, ?_⟩
  · intro db userId membership orgId ticketId body now auditOk ticket t' db'
      hfind hmem hok
    unfold patchTicketHandler at hok
    split at hok
    · cases hok
    · rename_i hval
      have hschema : patchSchemaValid body = true := by
        simpa using hval
      rw [hfind] at hok
      dsimp only at hok
      split at hok
      · cases hok
      · cases h1 : stepTitleDescr membership ticket body { upd := {}, meta := {} } with
        | error e => rw [h1] at hok; cases hok
        | ok acc1 =>
          rw [h1] at hok
          dsimp only at hok
          cases h2 : stepStatus membership.role ticket body now acc1 with
          | error e => rw [h2] at hok; cases hok
          | ok acc2 =>
            rw [h2] at hok
            dsimp only at hok
            cases h3 : stepAssignee db.memberships orgId ticket body acc2 with
            | error e => rw [h3] at hok; cases hok
            | ok acc3 =>
              rw [h3] at hok
              dsimp only at hok
              obtain ⟨p1s, p1r, p1c, p1m⟩ :=
                stepTitleDescr_preserves membership ticket body _ acc1 h1
              obtain ⟨q1, q2, q3, q4⟩ :=
                stepStatus_spec membership.role ticket body now acc1 acc2 h2
              obtain ⟨r1s, r1r, r1c, r1m⟩ :=
                stepAssignee_preserves db.memberships orgId ticket body acc2 acc3 h3
              obtain ⟨a4s, a4r, a4c, a4m⟩ := stepApproval_preserves ticket body acc3
              split at hok
              · simp only [Except.ok.injEq, Prod.mk.injEq] at hok
                obtain ⟨hT, hD⟩ := hok
                subst hT
                exact hmem
              · simp only [Except.ok.injEq, Prod.mk.injEq] at hok
                obtain ⟨hT, hD⟩ := hok
                subst hT
                cases hu : (stepApproval ticket body acc3).upd.status with
                | none => simpa [applyUpdate, hu] using hmem
                | some s =>
                  rw [a4s, r1s] at hu
                  rcases q4 s hu with hA | hB
                  · rw [p1s] at hA
                    cases hA
                  · have hs_enum : s ∈ ticketStatusEnum := hstat body hschema s hB
                    have hu' : (stepApproval ticket body acc3).upd.status = some s := by
                      rw [a4s, r1s, hu]
                    simpa [applyUpdate, hu'] using hs_enum
  · intro db userId orgId body newId now auditOk t db' h
    unfold createTicketHandler at h
    split at h
    · cases h
    · split at h
      · split at h
        · simp only [Except.ok.injEq, Prod.mk.injEq] at h
          rw [← h.1]
          show "OPEN" ∈ ticketStatusEnum
          decide
        · cases h
      · simp only [Except.ok.injEq, Prod.mk.injEq] at h
        rw [← h.1]
        show "OPEN" ∈ ticketStatusEnum
        decide

/-- Witness for C10: an accepted (empty) update of an OPEN ticket keeps the
status inside the six-member enum. -/
theorem rejected_unreachable_witness :
    patchTicketHandler plainDb "u1" adminMembership "org1" "t1" {} 7 true =
      .ok (plainTicket, plainDb) ∧
    plainTicket.status ∈ ticketStatusEnum :=
  ⟨by rfl,
   rejected_unreachable.2.2.2.1 plainDb "u1" adminMembership "org1" "t1" {} 7 true
     plainTicket plainTicket plainDb (by rfl) (by decide) (by rfl)⟩
